import Mathlib

/-
  Verification of the trailing stop-loss / take-profit and safety-order core
  of the trailingstoploss_tp bot helper.

  The embedding models:
  - the per-deal persisted state (deal_profit, deal_safety, pending_orders
    tables of the sqlite database) as lists of rows;
  - the pure lookup get_settings;
  - the stateful evaluation functions process_deals, process_deal_for_profit,
    process_deal_for_safety_order, handle_deal_profit, handle_deal_safety,
    evaluate_deal_orders, evaluate_mp_stoploss, update_deal_profit, and the
    scheduling decision of the main polling loop;
  - outbound exchange-platform calls as an oracle record (Exchange) fixing
    the response of each collaborator for the evaluation under scrutiny,
    together with an explicit trace of the remote calls that were issued.

  Numeric values (percentages, prices) are modelled as exact rationals.
  Python round is modelled with the mathematical round (they differ only at
  exact .5 ties, which no claim nor witness touches).  Logging and message
  construction are not modelled: only state changes, remote calls and return
  values are.  Helpers that live in a module not present in the sources
  (calculate_safety_order, calculate_sl_percentage, calculate_tp_percentage,
  check_float, is_new_deal, is_valid_deal, the row getters) are modelled from
  the spec, as noted on each definition.
-/

/-- Two-decimal rounding, as in round(x, 2). -/
def round2 (x : ℚ) : ℚ := (round (x * 100) : ℚ) / 100

/-- Python str.lower modelled character-wise (kernel-evaluable). -/
def strLower (s : String) : String := ⟨s.data.map Char.toLower⟩

/-- Deal data as delivered by the exchange platform (read-only input).
    Only the fields the core reads behaviorally are modelled;
    profit_percentage_is_number models the check_float admission test
    (Modelled from the spec: non-numeric profit means a delisted pair). -/
structure DealData where
  id : ℤ
  strategy : String
  status : String
  profit_percentage_is_number : Bool
  actual_profit_percentage : ℚ
  current_price : ℚ
  base_order_average_price : ℚ
  take_profit : ℚ
  max_safety_orders : ℤ
  completed_safety_orders_count : ℤ
  active_manual_safety_orders : ℤ
  close_strategy_list_len : ℕ
  min_profit_percentage : ℚ
deriving DecidableEq, Repr

/-- One row of the deal_profit table. -/
structure ProfitRow where
  dealid : ℤ
  botid : ℤ
  last_profit_percentage : ℚ
  last_readable_sl_percentage : ℚ
  last_readable_tp_percentage : ℚ
deriving DecidableEq, Repr

/-- One row of the deal_safety table. -/
structure SafetyRow where
  dealid : ℤ
  botid : ℤ
  last_profit_percentage : ℚ
  add_funds_percentage : ℚ
  next_so_percentage : ℚ
  filled_so_count : ℤ
  shift_percentage : ℚ
deriving DecidableEq, Repr

/-- One row of the pending_orders table. -/
structure PendingOrderRow where
  dealid : ℤ
  botid : ℤ
  order_id : String
  cancel_at_percentage : ℚ
  number_of_so : ℤ
  next_so_percentage : ℚ
  shift_percentage : ℚ
deriving DecidableEq, Repr

/-- The three per-deal tables of the local sqlite database. -/
structure TslDb where
  deal_profit : List ProfitRow
  deal_safety : List SafetyRow
  pending_orders : List PendingOrderRow
deriving DecidableEq, Repr

/-- One entry of the safety-config list (JSON dict in the ini file). -/
structure SafetyConfigEntry where
  activation_percentage : ℚ
  activation_so_count : ℤ
  initial_buy_percentage : ℚ
  buy_increment_factor : ℚ
deriving DecidableEq, Repr

/-- One entry of the profit-config list (JSON dict in the ini file). -/
structure ProfitConfigEntry where
  activation_percentage : ℚ
  activation_so_count : ℤ
  initial_stoploss_percentage : ℚ
  sl_timeout : ℤ
  sl_increment_factor : ℚ
  tp_increment_factor : ℚ
deriving DecidableEq, Repr

/-- Result of calculate_safety_order.  Modelled from the spec: the external
    numeric helper computing order size, limit price and the current/next
    total-drawdown levels of the safety orders; its module is not among the
    sources, so its result is an oracle input. -/
structure SoData where
  number_of_so : ℤ
  total_volume : ℚ
  buy_price : ℚ
  current_so_percentage : ℚ
  next_so_percentage : ℚ
deriving DecidableEq, Repr

/-- Result of calculate_sl_percentage.  Modelled from the spec: candidate
    stop-loss data (current value, new value on the inverted axis, readable
    value); the helper module is not among the sources. -/
structure SlData where
  current_sl : ℚ
  new_sl : ℚ
  readable_sl : ℚ
deriving DecidableEq, Repr

/-- Result of calculate_tp_percentage.  Modelled from the spec: current and
    new take-profit value; the helper module is not among the sources. -/
structure TpData where
  current_tp : ℚ
  new_tp : ℚ
deriving DecidableEq, Repr

/-- The data echoed back by the update_deal API request. -/
structure UpdateResponse where
  stop_loss_percentage : ℚ
  take_profit : ℚ
  stop_loss_timeout_in_seconds : ℤ
deriving DecidableEq, Repr

/-- Oracle fixing the responses of the outbound collaborators for one
    evaluation: exchange-platform calls and the numeric helpers whose module
    is not among the sources. -/
structure Exchange where
  cancel_order_ok : Bool
  order_status : String
  limitdata_ok : Bool
  add_funds_ok : Bool
  deal_order_id : String
  update_deal_response : Option UpdateResponse
  close_deal_ok : Bool
  sodata : SoData
  sldata : SlData
  tpdata : TpData
  deal_is_valid : Bool
deriving DecidableEq, Repr

/-- Trace element: one remote call to the exchange platform. -/
inductive RemoteCall where
  | cancelOrder (dealId : ℤ) (orderId : String)
  | orderStatus (dealId : ℤ) (orderId : String)
  | getAddFundsData (dealId : ℤ)
  | addFunds (dealId : ℤ)
  | getOrderId (dealId : ℤ)
  | updateDeal (dealId : ℤ) (stoploss takeprofit : ℚ) (slTimeout : ℤ)
  | closeDeal (dealId : ℤ)
deriving DecidableEq, Repr

/-- get_profit_db_data.  Modelled from the spec: row-level get keyed by deal
    id on the deal_profit table (fetchone on SELECT WHERE dealid = id). -/
def get_profit_db_data (db : TslDb) (deal_id : ℤ) : Option ProfitRow :=
  (db.deal_profit.filter (fun r => decide (r.dealid = deal_id))).head?

/-- get_safety_db_data.  Modelled from the spec: row-level get keyed by deal
    id on the deal_safety table. -/
def get_safety_db_data (db : TslDb) (deal_id : ℤ) : Option SafetyRow :=
  (db.deal_safety.filter (fun r => decide (r.dealid = deal_id))).head?

/-- get_pending_order_db_data.  Modelled from the spec: row-level get keyed
    by deal id on the pending_orders table. -/
def get_pending_order_db_data (db : TslDb) (deal_id : ℤ) : Option PendingOrderRow :=
  (db.pending_orders.filter (fun r => decide (r.dealid = deal_id))).head?

/-- add_deal_in_db: INSERT default rows into deal_profit and deal_safety. -/
def add_deal_in_db (db : TslDb) (deal_id bot_id : ℤ) : TslDb :=
  { db with
    deal_profit := db.deal_profit ++ [⟨deal_id, bot_id, 0, 0, 0⟩],
    deal_safety := db.deal_safety ++ [⟨deal_id, bot_id, 0, 0, 0, 0, 0⟩] }

/-- update_profit_in_db: UPDATE deal_profit SET ... WHERE dealid. -/
def update_profit_in_db (db : TslDb) (deal_id : ℤ)
    (tp_percentage readable_sl_percentage readable_tp_percentage : ℚ) : TslDb :=
  { db with deal_profit := db.deal_profit.map (fun r =>
      if r.dealid = deal_id then
        { r with
          last_profit_percentage := tp_percentage,
          last_readable_sl_percentage := readable_sl_percentage,
          last_readable_tp_percentage := readable_tp_percentage }
      else r) }

/-- update_safetyorder_in_db: UPDATE deal_safety SET next_so_percentage,
    filled_so_count, shift_percentage WHERE dealid. -/
def update_safetyorder_in_db (db : TslDb) (deal_id : ℤ)
    (filled_so_count : ℤ) (next_so_percentage shift_percentage : ℚ) : TslDb :=
  { db with deal_safety := db.deal_safety.map (fun r =>
      if r.dealid = deal_id then
        { r with
          next_so_percentage := next_so_percentage,
          filled_so_count := filled_so_count,
          shift_percentage := shift_percentage }
      else r) }

/-- update_safetyorder_monitor_in_db: UPDATE deal_safety SET
    last_profit_percentage, add_funds_percentage WHERE dealid. -/
def update_safetyorder_monitor_in_db (db : TslDb) (deal_id : ℤ)
    (last_profit_percentage add_funds_percentage : ℚ) : TslDb :=
  { db with deal_safety := db.deal_safety.map (fun r =>
      if r.dealid = deal_id then
        { r with
          last_profit_percentage := last_profit_percentage,
          add_funds_percentage := add_funds_percentage }
      else r) }

/-- add_pending_order_in_db: INSERT one row into pending_orders. -/
def add_pending_order_in_db (db : TslDb) (row : PendingOrderRow) : TslDb :=
  { db with pending_orders := db.pending_orders ++ [row] }

/-- update_pending_order_in_db: UPDATE pending_orders SET order_id WHERE
    dealid AND order_id. -/
def update_pending_order_in_db (db : TslDb) (deal_id : ℤ)
    (old_order_id new_order_id : String) : TslDb :=
  { db with pending_orders := db.pending_orders.map (fun r =>
      if r.dealid = deal_id ∧ r.order_id = old_order_id then
        { r with order_id := new_order_id }
      else r) }

/-- remove_pending_order_from_db: DELETE FROM pending_orders WHERE dealid
    AND order_id. -/
def remove_pending_order_from_db (db : TslDb) (deal_id : ℤ) (order_id : String) : TslDb :=
  { db with pending_orders := db.pending_orders.filter (fun r =>
      !(decide (r.dealid = deal_id) && decide (r.order_id = order_id))) }

/-- The pending_orders rows stored for one deal id. -/
def pendingRows (db : TslDb) (deal_id : ℤ) : List PendingOrderRow :=
  db.pending_orders.filter (fun r => decide (r.dealid = deal_id))

/-- get_settings: fold over the config list keeping the last entry whose
    activation percentage and activation so-count are both reached.  The
    entry type is generic (profit and safety entries share the lookup);
    actPct and actCnt read the two activation fields of an entry. -/
def get_settings {α : Type} (actPct : α → ℚ) (actCnt : α → ℤ)
    (section_config : List α) (current_profit : ℚ) (current_so_level : ℤ) : Option α :=
  section_config.foldl
    (fun settings entry =>
      if current_profit ≥ actPct entry ∧ current_so_level ≥ actCnt entry then some entry
      else settings)
    none

theorem getLast?_cons_or {α : Type} (x : α) (l : List α) :
    (x :: l).getLast? = (l.getLast?).or (some x) := by
  induction l generalizing x with
  | nil => rfl
  | cons y ys ih =>
    rw [List.getLast?_cons_cons, ih y]
    cases h : ys.getLast? <;> simp [Option.or]

theorem foldl_if_eq_filter_getLast {α : Type} (p : α → Bool) (l : List α) (a : Option α) :
    l.foldl (fun s e => if p e then some e else s) a = ((l.filter p).getLast?).or a := by
  induction l generalizing a with
  | nil => simp
  | cons x xs ih =>
    simp only [List.foldl_cons]
    rw [ih]
    by_cases h : p x = true
    · rw [List.filter_cons_of_pos h, if_pos h, getLast?_cons_or]
      cases hl : (xs.filter p).getLast? <;> simp [Option.or]
    · rw [List.filter_cons_of_neg h, if_neg h]

/-- C2: get_settings returns the last entry of the table, in its given
    order, whose activation-percentage is at most the current profit and
    whose activation-so-count is at most the current safety-order count,
    and no entry (none) when no entry qualifies; on the concrete table
    [(0,0,A), (2,0,B), (2,1,C)] the lookup at (2,0) returns B and the
    lookup at (2,1) returns C. -/
theorem get_settings_last_match :
    (∀ (α : Type) (actPct : α → ℚ) (actCnt : α → ℤ) (cfg : List α) (p : ℚ) (s : ℤ),
      get_settings actPct actCnt cfg p s =
        (cfg.filter (fun e => decide (p ≥ actPct e ∧ s ≥ actCnt e))).getLast?) ∧
    (∀ A B C : SafetyConfigEntry,
      A.activation_percentage = 0 → A.activation_so_count = 0 →
      B.activation_percentage = 2 → B.activation_so_count = 0 →
      C.activation_percentage = 2 → C.activation_so_count = 1 →
      get_settings (fun e => e.activation_percentage) (fun e => e.activation_so_count)
          [A, B, C] 2 0 = some B ∧
      get_settings (fun e => e.activation_percentage) (fun e => e.activation_so_count)
          [A, B, C] 2 1 = some C) := by
  constructor
  · intro α actPct actCnt cfg p s
    unfold get_settings
    have h := foldl_if_eq_filter_getLast
      (fun e => decide (p ≥ actPct e ∧ s ≥ actCnt e)) cfg none
    rw [Option.or_none] at h
    rw [← h]
    congr 1
    funext st e
    by_cases hc : p ≥ actPct e ∧ s ≥ actCnt e <;> simp [hc]
  · intro A B C hA1 hA2 hB1 hB2 hC1 hC2
    constructor
    · unfold get_settings
      simp [List.foldl, hA1, hA2, hB1, hB2, hC1, hC2]
    · unfold get_settings
      simp [List.foldl, hA1, hA2, hB1, hB2, hC1, hC2]

/-- C2 witness: the general equation and the tie-break instances evaluated
    at a concrete table. -/
theorem get_settings_last_match_witness :
    get_settings (fun e : SafetyConfigEntry => e.activation_percentage)
        (fun e => e.activation_so_count)
        [⟨0, 0, 1, 1⟩, ⟨2, 0, 2, 2⟩, ⟨2, 1, 3, 3⟩] 2 0 = some ⟨2, 0, 2, 2⟩ ∧
    get_settings (fun e : SafetyConfigEntry => e.activation_percentage)
        (fun e => e.activation_so_count)
        [⟨0, 0, 1, 1⟩, ⟨2, 0, 2, 2⟩, ⟨2, 1, 3, 3⟩] 2 1 = some ⟨2, 1, 3, 3⟩ :=
  (get_settings_last_match.2 ⟨0, 0, 1, 1⟩ ⟨2, 0, 2, 2⟩ ⟨2, 1, 3, 3⟩
    rfl rfl rfl rfl rfl rfl : _)

/-- Result of evaluate_deal_orders: the two returned flags, the database
    after the commits made inside, and the trace of remote calls. -/
structure EvalOrdersResult where
  requiremonitoring : ℕ
  refreshdealdbdata : Bool
  db : TslDb
  calls : List RemoteCall
deriving DecidableEq, Repr

/-- The openorderfilled block of evaluate_deal_orders: persist the total
    filled count and the next SO, reset the trailing monitor, and delete the
    pending order row. -/
def order_filled_transition (db : TslDb) (deal_id : ℤ) (deal_db_data : SafetyRow)
    (o : PendingOrderRow) : TslDb :=
  let db1 := update_safetyorder_in_db db deal_id
    (deal_db_data.filled_so_count + o.number_of_so) o.next_so_percentage o.shift_percentage
  let db2 := update_safetyorder_monitor_in_db db1 deal_id 0 o.next_so_percentage
  remove_pending_order_from_db db2 deal_id o.order_id

/-- evaluate_deal_orders: resolve a pending safety order, if any, before any
    trailing or placement logic runs. -/
def evaluate_deal_orders (ex : Exchange) (deal_data : DealData)
    (deal_db_data : SafetyRow) (order_db_data : Option PendingOrderRow)
    (total_profit : ℚ) (db : TslDb) : EvalOrdersResult :=
  match order_db_data with
  | some o =>
    if o.order_id ≠ "" then
      if deal_data.active_manual_safety_orders > 0 then
        if total_profit ≥ o.cancel_at_percentage then
          -- Pending order not yet reached by the cancel level: keep waiting
          ⟨1, false, db, []⟩
        else if ex.cancel_order_ok then
          -- Cancelled: reset trailing and delete the pending order row
          let db1 := update_safetyorder_monitor_in_db db deal_data.id 0 o.next_so_percentage
          let db2 := remove_pending_order_from_db db1 deal_data.id o.order_id
          ⟨0, true, db2, [RemoteCall.cancelOrder deal_data.id o.order_id]⟩
        else
          let calls := [RemoteCall.cancelOrder deal_data.id o.order_id,
                        RemoteCall.orderStatus deal_data.id o.order_id]
          if strLower ex.order_status = "filled" then
            ⟨0, true, order_filled_transition db deal_data.id deal_db_data o, calls⟩
          else
            -- Cancellation failed and the order is not filled: retry next interval
            ⟨1, false, db, calls⟩
      else
        -- No active manual safety order anymore, so the order has been filled
        ⟨0, true, order_filled_transition db deal_data.id deal_db_data o, []⟩
    else
      ⟨0, false, db, []⟩
  | none => ⟨0, false, db, []⟩

/-- handle_deal_safety: trailing of the add-funds threshold and placement of
    the next safety order.  Returns the monitoring flag, the database and the
    trace of remote calls. -/
def handle_deal_safety (ex : Exchange) (deal_data : DealData) (bot_id : ℤ)
    (deal_db_data : SafetyRow) (safety_config : SafetyConfigEntry)
    (current_profit_percentage : ℚ) (db : TslDb) : ℕ × TslDb × List RemoteCall :=
  let currentaddfundspercentage := deal_db_data.add_funds_percentage
  let lastprofitpercentage := deal_db_data.last_profit_percentage
  if current_profit_percentage > lastprofitpercentage then
    let initialbuy := safety_config.initial_buy_percentage
    let base := deal_db_data.next_so_percentage + initialbuy
    let newaddfundspercentage :=
      base + round2 ((current_profit_percentage - base) * safety_config.buy_increment_factor)
    if |newaddfundspercentage| > |currentaddfundspercentage| then
      (1, update_safetyorder_monitor_in_db db deal_data.id
            current_profit_percentage newaddfundspercentage, [])
    else
      (1, db, [])
  else if current_profit_percentage ≤ currentaddfundspercentage then
    if current_profit_percentage < deal_db_data.next_so_percentage then
      -- Missed the Add Funds window; reset so trailing can start over
      (0, update_safetyorder_monitor_in_db db deal_data.id 0
            deal_db_data.next_so_percentage, [])
    else
      let sodata := ex.sodata
      if ex.limitdata_ok then
        if ex.add_funds_ok then
          let calls := [RemoteCall.getAddFundsData deal_data.id,
                        RemoteCall.addFunds deal_data.id,
                        RemoteCall.getOrderId deal_data.id]
          if ex.deal_order_id ≠ "" then
            (0, add_pending_order_in_db db
                  ⟨deal_data.id, bot_id, ex.deal_order_id, sodata.current_so_percentage,
                   sodata.number_of_so, sodata.next_so_percentage,
                   deal_db_data.shift_percentage⟩, calls)
          else
            -- No active order id: the order filled synchronously
            let totalfilledso := deal_db_data.filled_so_count + sodata.number_of_so
            let db1 := update_safetyorder_in_db db deal_data.id totalfilledso
              sodata.next_so_percentage deal_db_data.shift_percentage
            (0, update_safetyorder_monitor_in_db db1 deal_data.id 0
                  sodata.next_so_percentage, calls)
        else
          (0, db, [RemoteCall.getAddFundsData deal_data.id, RemoteCall.addFunds deal_data.id])
      else
        (0, db, [RemoteCall.getAddFundsData deal_data.id])
  else
    (1, db, [])

/-- The trailing-reset write of process_deal_for_safety_order, performed iff
    the stored trailing state moved away from (0, next_so_percentage). -/
def safety_trailing_reset (deal_id : ℤ) (dealdbdata : SafetyRow) (db : TslDb) : TslDb :=
  if dealdbdata.last_profit_percentage ≠ 0 ∨
     dealdbdata.add_funds_percentage ≠ dealdbdata.next_so_percentage then
    update_safetyorder_monitor_in_db db deal_id 0 dealdbdata.next_so_percentage
  else
    db

/-- The part of process_deal_for_safety_order after the pending orders have
    been evaluated: exhaustion check, relative profit, config lookup and
    either handle_deal_safety or a trailing reset. -/
def safety_so_stage (ex : Exchange) (section_safety_config : List SafetyConfigEntry)
    (deal_data : DealData) (bot_id : ℤ) (totalprofit : ℚ)
    (dealdbdata : SafetyRow) (db : TslDb) : ℕ × TslDb × List RemoteCall :=
  if dealdbdata.filled_so_count = deal_data.max_safety_orders then
    (0, db, [])
  else
    let sorelativeprofit := round2 (totalprofit - dealdbdata.next_so_percentage)
    if sorelativeprofit ≥ 0 then
      match get_settings (fun e => e.activation_percentage)
          (fun e => e.activation_so_count) section_safety_config
          sorelativeprofit dealdbdata.filled_so_count with
      | some safetyconfig =>
        handle_deal_safety ex deal_data bot_id dealdbdata safetyconfig totalprofit db
      | none =>
        (0, safety_trailing_reset deal_data.id dealdbdata db, [])
    else
      (0, safety_trailing_reset deal_data.id dealdbdata db, [])

/-- process_deal_for_safety_order: evaluation of a deal with negative actual
    profit.  Returns none where the Python code would raise (missing
    deal_safety row). -/
def process_deal_for_safety_order (ex : Exchange)
    (section_safety_config : List SafetyConfigEntry) (deal_data : DealData)
    (bot_id : ℤ) (db : TslDb) : Option (ℕ × TslDb × List RemoteCall) :=
  let totalprofit :=
    round2 |(deal_data.current_price / deal_data.base_order_average_price) * 100 - 100|
  match get_safety_db_data db deal_data.id with
  | none => none
  | some dbdata0 =>
    let orderdbdata := get_pending_order_db_data db deal_data.id
    let r := evaluate_deal_orders ex deal_data dbdata0 orderdbdata totalprofit db
    if r.requiremonitoring ≠ 0 then some (1, r.db, r.calls)
    else
      match (if r.refreshdealdbdata then get_safety_db_data r.db deal_data.id
             else some dbdata0) with
      | none => none
      | some dealdbdata =>
        let s := safety_so_stage ex section_safety_config deal_data bot_id
          totalprofit dealdbdata r.db
        some (s.1, s.2.1, r.calls ++ s.2.2)

/-- update_deal_profit: one update_deal API request; the update counts as
    done only when the echoed stoploss, take profit and timeout all equal
    the requested values. -/
def update_deal_profit (ex : Exchange) (deal_data : DealData)
    (new_stoploss new_take_profit : ℚ) (sl_timeout : ℤ) : Bool × List RemoteCall :=
  let calls := [RemoteCall.updateDeal deal_data.id new_stoploss new_take_profit sl_timeout]
  match ex.update_deal_response with
  | some data =>
    if data.stop_loss_percentage ≠ new_stoploss ∨ data.take_profit ≠ new_take_profit ∨
       data.stop_loss_timeout_in_seconds ≠ sl_timeout then
      (false, calls)
    else
      (true, calls)
  | none => (false, calls)

/-- evaluate_mp_stoploss: local stop handling for deals with a conditional
    close strategy. -/
def evaluate_mp_stoploss (deal_data : DealData)
    (current_profit_percentage last_readable_sl_percentage : ℚ) (db : TslDb) :
    TslDb × List RemoteCall :=
  if current_profit_percentage ≤ last_readable_sl_percentage then
    if current_profit_percentage ≥ deal_data.min_profit_percentage then
      (db, [RemoteCall.closeDeal deal_data.id])
    else
      (update_profit_in_db db deal_data.id 0 0 0, [])
  else
    (db, [])

/-- The branch of handle_deal_profit taken when no profit-config entry
    matched or the profit did not increase. -/
def handle_deal_profit_noincrease (ex : Exchange) (bot_take_profit : ℚ)
    (deal_data : DealData) (deal_db_data : ProfitRow) (has_config : Bool)
    (db : TslDb) : ℕ × TslDb × List RemoteCall :=
  let base :=
    if deal_data.close_strategy_list_len > 0 then
      evaluate_mp_stoploss deal_data deal_data.actual_profit_percentage
        deal_db_data.last_readable_sl_percentage db
    else if ¬has_config = true ∧ deal_db_data.last_profit_percentage > bot_take_profit then
      -- Trailing was active before and the config no longer matches: restore
      let u := update_deal_profit ex deal_data 0 bot_take_profit 0
      if u.1 then (update_profit_in_db db deal_data.id 0 0 0, u.2)
      else (db, u.2)
    else
      (db, [])
  ((if has_config then 1 else 0), base.1, base.2)

/-- handle_deal_profit: trailing stop-loss / take-profit for a deal in
    positive profit.  The candidate SL and TP values (computed by helpers
    whose module is not among the sources) come from the oracle.  Message
    construction and notification flags are not modelled. -/
def handle_deal_profit (ex : Exchange) (bot_take_profit : ℚ) (deal_data : DealData)
    (deal_db_data : ProfitRow) (profit_config : Option ProfitConfigEntry)
    (db : TslDb) : ℕ × TslDb × List RemoteCall :=
  let currentprofitpercentage := deal_data.actual_profit_percentage
  let lastprofitpercentage := deal_db_data.last_profit_percentage
  match profit_config with
  | some pc =>
    if currentprofitpercentage > lastprofitpercentage then
      let sldata := ex.sldata
      let tpdata := ex.tpdata
      let newsltimeout := pc.sl_timeout
      -- Debug request logging all orders when the profit is close to the TP
      let debugcalls :=
        if |tpdata.current_tp - currentprofitpercentage| ≤ (15 : ℚ) / 100 then
          [RemoteCall.orderStatus deal_data.id "*"]
        else []
      if deal_data.close_strategy_list_len > 0 then
        -- Close strategy in use: keep track of the stoploss locally only
        (1, update_profit_in_db db deal_data.id currentprofitpercentage
              sldata.readable_sl tpdata.new_tp, debugcalls)
      else
        let u := update_deal_profit ex deal_data sldata.new_sl tpdata.new_tp newsltimeout
        if u.1 then
          (1, update_profit_in_db db deal_data.id currentprofitpercentage
                sldata.readable_sl tpdata.new_tp, debugcalls ++ u.2)
        else
          (1, db, debugcalls ++ u.2)
    else
      handle_deal_profit_noincrease ex bot_take_profit deal_data deal_db_data true db
  | none =>
    handle_deal_profit_noincrease ex bot_take_profit deal_data deal_db_data false db

/-- process_deal_for_profit: evaluation of a deal with positive actual
    profit.  Returns none where the Python code would raise (missing
    deal_profit row). -/
def process_deal_for_profit (ex : Exchange)
    (section_profit_config : List ProfitConfigEntry) (bot_take_profit : ℚ)
    (deal_data : DealData) (db : TslDb) : Option (ℕ × TslDb × List RemoteCall) :=
  if deal_data.close_strategy_list_len = 0 ∧
     deal_data.actual_profit_percentage ≥ deal_data.take_profit then
    some (0, db, [])
  else
    match get_profit_db_data db deal_data.id with
    | none => none
    | some dealdbdata =>
      let profitconfig := get_settings (fun e => e.activation_percentage)
        (fun e => e.activation_so_count) section_profit_config
        deal_data.actual_profit_percentage deal_data.completed_safety_orders_count
      some (handle_deal_profit ex bot_take_profit deal_data dealdbdata profitconfig db)

/-- is_new_deal.  Modelled from the spec: a deal is new when it has no state
    row yet; the helper module is not among the sources. -/
def is_new_deal (db : TslDb) (deal_id : ℤ) : Bool :=
  (get_profit_db_data db deal_id).isNone

/-- set_first_safety_order: compute (oracle) and persist the first safety
    order threshold for a newly admitted deal. -/
def set_first_safety_order (ex : Exchange) (deal_data : DealData)
    (filled_so_count : ℤ) (db : TslDb) : TslDb :=
  let sodata := ex.sodata
  let db1 := update_safetyorder_in_db db deal_data.id filled_so_count
    sodata.next_so_percentage 0
  update_safetyorder_monitor_in_db db1 deal_data.id 0 sodata.next_so_percentage

/-- remove_closed_deals: per-bot bulk DELETE of rows whose dealid is not in
    the current deals list (no-op on an empty list). -/
def remove_closed_deals (db : TslDb) (bot_id : ℤ) (current_deals : List ℤ) : TslDb :=
  if current_deals = [] then db
  else
    { deal_profit := db.deal_profit.filter (fun r =>
        !(decide (r.botid = bot_id) && !(current_deals.contains r.dealid))),
      deal_safety := db.deal_safety.filter (fun r =>
        !(decide (r.botid = bot_id) && !(current_deals.contains r.dealid))),
      pending_orders := db.pending_orders.filter (fun r =>
        !(decide (r.botid = bot_id) && !(current_deals.contains r.dealid))) }

/-- remove_all_deals: DELETE all rows of the given bot. -/
def remove_all_deals (db : TslDb) (bot_id : ℤ) : TslDb :=
  { deal_profit := db.deal_profit.filter (fun r => !(decide (r.botid = bot_id))),
    deal_safety := db.deal_safety.filter (fun r => !(decide (r.botid = bot_id))),
    pending_orders := db.pending_orders.filter (fun r => !(decide (r.botid = bot_id))) }

/-- Result of the loop body of process_deals for one deal: whether the deal
    was appended to currentdeals, the monitored increment, the database and
    the remote calls. -/
structure DealStepResult where
  included : Bool
  monitored : ℕ
  db : TslDb
  calls : List RemoteCall
deriving DecidableEq, Repr

/-- The loop body of process_deals for one deal: eligibility checks,
    first-sighting admission, and dispatch to the profit or safety engine. -/
def process_single_deal (ex : Exchange)
    (section_profit_config : List ProfitConfigEntry)
    (section_safety_config : List SafetyConfigEntry)
    (bot_take_profit : ℚ) (bot_id : ℤ) (deal : DealData) (db : TslDb) :
    Option DealStepResult :=
  if deal.strategy ≠ "short" ∧ deal.strategy ≠ "long" then
    some ⟨false, 0, db, []⟩
  else if ¬deal.profit_percentage_is_number = true then
    some ⟨false, 0, db, []⟩
  else if strLower deal.status ≠ "bought" ∧
          strLower deal.status ≠ "close_strategy_activated" then
    some ⟨false, 0, db, []⟩
  else
    let admitted :=
      if is_new_deal db deal.id then
        if ex.deal_is_valid then
          let dbA := add_deal_in_db db deal.id bot_id
          let dbB := if section_safety_config.length > 0 then
              set_first_safety_order ex deal 0 dbA
            else dbA
          (true, dbB)
        else (false, db)
      else (true, db)
    if admitted.1 then
      if deal.actual_profit_percentage > 0 ∧ section_profit_config.length > 0 then
        match process_deal_for_profit ex section_profit_config bot_take_profit
            deal admitted.2 with
        | none => none
        | some r => some ⟨true, r.1, r.2.1, r.2.2⟩
      else if deal.actual_profit_percentage < 0 ∧ section_safety_config.length > 0 then
        match process_deal_for_safety_order ex section_safety_config deal bot_id
            admitted.2 with
        | none => none
        | some r => some ⟨true, r.1, r.2.1, r.2.2⟩
      else
        some ⟨true, 0, admitted.2, []⟩
    else
      some ⟨false, 0, admitted.2, []⟩

/-- process_deals: handle all active deals of a bot, then housekeeping.
    Returns the number of monitored deals, the final database and the trace
    of remote calls. -/
def process_deals (ex : Exchange)
    (section_profit_config : List ProfitConfigEntry)
    (section_safety_config : List SafetyConfigEntry)
    (bot_take_profit : ℚ) (bot_id : ℤ) (deals : List DealData) (db : TslDb) :
    Option (ℕ × TslDb × List RemoteCall) :=
  if deals = [] then some (0, remove_all_deals db bot_id, [])
  else
    let step := deals.foldl
      (fun acc deal =>
        match acc with
        | none => none
        | some (mon, cur, db0, cs) =>
          match process_single_deal ex section_profit_config section_safety_config
              bot_take_profit bot_id deal db0 with
          | none => none
          | some r =>
            some (mon + r.monitored,
                  if r.included then cur ++ [deal.id] else cur,
                  r.db, cs ++ r.calls))
      (some (0, ([] : List ℤ), db, ([] : List RemoteCall)))
    match step with
    | none => none
    | some (mon, cur, db1, cs) => some (mon, remove_closed_deals db1 bot_id cur, cs)

/-- The scheduling decision of the main polling loop for one bot: the bot is
    evaluated only when due; after a successful evaluation the stored next
    processing time is starttime plus the check interval when no deal is
    monitored, else plus the monitor interval.  Returns the new stored
    timestamp, or none when the bot was not evaluated (not due, or the bot
    data request failed). -/
def main_loop_bot_step (starttime checkinterval monitorinterval
    nextprocesstime : ℤ) (botdata_available : Bool)
    (bot_deals_to_monitor : ℕ) : Option ℤ :=
  if starttime ≥ nextprocesstime ∨ |nextprocesstime - starttime| > checkinterval then
    if botdata_available then
      some (starttime +
        (if bot_deals_to_monitor = 0 then checkinterval else monitorinterval))
    else none
  else none

/-- C9: a bot is evaluated in the cycle starting at starttime exactly when
    starttime is at or past the stored next processing time or the stored
    time is more than one check interval away in either direction; and after
    a successful evaluation the stored time becomes starttime plus the
    monitor interval when at least one deal required monitoring, else
    starttime plus the check interval. -/
theorem main_loop_schedule_correct (s c m n : ℤ) (avail : Bool) (d : ℕ) :
    ((main_loop_bot_step s c m n avail d).isSome → (s ≥ n ∨ |n - s| > c)) ∧
    ((s ≥ n ∨ |n - s| > c) → avail = true →
      main_loop_bot_step s c m n avail d =
        some (s + (if d = 0 then c else m))) := by
  constructor
  · intro h
    by_cases hd : s ≥ n ∨ |n - s| > c
    · exact hd
    · simp [main_loop_bot_step, hd] at h
  · intro hd ha
    simp [main_loop_bot_step, hd, ha]

/-- C9 witness: a due bot (100 is at or past 50) with one monitored deal is
    rescheduled at starttime plus the monitor interval. -/
theorem main_loop_schedule_correct_witness :
    main_loop_bot_step 100 10 5 50 true 1 = some 105 := by
  have h := (main_loop_schedule_correct 100 10 5 50 true 1).2 (by decide) rfl
  simpa using h

/-- C6: a deal whose stored filled safety-order count equals the maximum
    number of safety orders of the deal, with no pending order outstanding,
    is reported as not monitored, no remote call at all is issued (so the
    order placement collaborator is never called and handle_deal_safety is
    never reached) and the database is unchanged, regardless of drawdown. -/
theorem safety_exhaustion_no_placement (ex : Exchange)
    (cfg : List SafetyConfigEntry) (deal : DealData) (bot : ℤ) (db : TslDb)
    (sd : SafetyRow)
    (hp : get_pending_order_db_data db deal.id = none)
    (hs : get_safety_db_data db deal.id = some sd)
    (hmax : sd.filled_so_count = deal.max_safety_orders) :
    process_deal_for_safety_order ex cfg deal bot db = some (0, db, []) := by
  unfold process_deal_for_safety_order
  rw [hs, hp]
  simp [evaluate_deal_orders, safety_so_stage, hmax]

/-- C6 witness: a deal with all three safety orders filled is skipped. -/
theorem safety_exhaustion_no_placement_witness :
    process_deal_for_safety_order
      ⟨true, "", true, true, "x", none, true, ⟨1, 0, 0, 0, 0⟩, ⟨0, 0, 0⟩, ⟨0, 0⟩, true⟩
      [⟨0, 0, 0, 1/2⟩]
      ⟨7, "long", "bought", true, -2, 90, 100, 1, 3, 3, 0, 0, 0⟩ 1
      ⟨[], [⟨7, 1, 0, 5, 5, 3, 0⟩], []⟩ =
    some (0, ⟨[], [⟨7, 1, 0, 5, 5, 3, 0⟩], []⟩, []) :=
  safety_exhaustion_no_placement
    ⟨true, "", true, true, "x", none, true, ⟨1, 0, 0, 0, 0⟩, ⟨0, 0, 0⟩, ⟨0, 0⟩, true⟩
    [⟨0, 0, 0, 1/2⟩]
    ⟨7, "long", "bought", true, -2, 90, 100, 1, 3, 3, 0, 0, 0⟩ 1
    ⟨[], [⟨7, 1, 0, 5, 5, 3, 0⟩], []⟩
    ⟨7, 1, 0, 5, 5, 3, 0⟩ (by decide) (by decide) (by decide)

/-- C7: for a deal in drawdown with no pending order and safety orders left,
    when the relative profit round2(totalDrawdownPct - next_so_percentage)
    is strictly negative, no order is placed (no remote call at all) and the
    deal is not monitored; the trailing state is reset to last profit 0 and
    add-funds threshold next_so_percentage exactly when the stored state had
    moved away from those values. -/
theorem so_below_level_trailing_reset (ex : Exchange)
    (cfg : List SafetyConfigEntry) (deal : DealData) (bot : ℤ) (db : TslDb)
    (sd : SafetyRow)
    (hp : get_pending_order_db_data db deal.id = none)
    (hs : get_safety_db_data db deal.id = some sd)
    (hmax : sd.filled_so_count ≠ deal.max_safety_orders)
    (hneg : round2 (round2 |(deal.current_price / deal.base_order_average_price)
              * 100 - 100| - sd.next_so_percentage) < 0) :
    process_deal_for_safety_order ex cfg deal bot db =
      some (0,
        (if sd.last_profit_percentage ≠ 0 ∨
            sd.add_funds_percentage ≠ sd.next_so_percentage then
          update_safetyorder_monitor_in_db db deal.id 0 sd.next_so_percentage
        else db),
        []) := by
  unfold process_deal_for_safety_order
  rw [hs, hp]
  have hns : ¬ round2 (round2 |(deal.current_price / deal.base_order_average_price)
      * 100 - 100| - sd.next_so_percentage) ≥ 0 := not_le.mpr hneg
  simp [evaluate_deal_orders, safety_so_stage, safety_trailing_reset, hmax, hns]

/-- C7 witness: the missed safety-order window scenario, with total drawdown
    4.9 percent, next safety order at 5 percent and a trailing state that
    had moved (stored last profit 3): the relative profit is -0.1, no order
    is placed and the state is reset to (0, 5). -/
theorem so_below_level_trailing_reset_witness :
    process_deal_for_safety_order
      ⟨true, "", true, true, "x", none, true, ⟨1, 0, 0, 0, 0⟩, ⟨0, 0, 0⟩, ⟨0, 0⟩, true⟩
      [⟨0, 0, 0, 1/2⟩]
      ⟨9, "long", "bought", true, -49/10, 951/10, 100, 1, 3, 1, 0, 0, 0⟩ 1
      ⟨[], [⟨9, 1, 3, 5, 5, 1, 0⟩], []⟩ =
    some (0, ⟨[], [⟨9, 1, 0, 5, 5, 1, 0⟩], []⟩, []) := by
  have h := so_below_level_trailing_reset
    ⟨true, "", true, true, "x", none, true, ⟨1, 0, 0, 0, 0⟩, ⟨0, 0, 0⟩, ⟨0, 0⟩, true⟩
    [⟨0, 0, 0, 1/2⟩]
    ⟨9, "long", "bought", true, -49/10, 951/10, 100, 1, 3, 1, 0, 0, 0⟩ 1
    ⟨[], [⟨9, 1, 3, 5, 5, 1, 0⟩], []⟩
    ⟨9, 1, 3, 5, 5, 1, 0⟩ (by decide) (by decide) (by decide)
    (by
      rw [show |(951/10 : ℚ) / 100 * 100 - 100| = 49/10 by
        rw [abs_eq] <;> norm_num]
      norm_num [round2, round_eq])
  rw [h]
  simp [update_safetyorder_monitor_in_db]

/-- C5: when a pending order exists and the deal shows no active manual
    safety order, evaluate_deal_orders treats the order as filled: it
    reports no monitoring and a refresh, issues no remote call, rewrites the
    safety row of the deal to carry the stored filled count plus the pending
    number of safety orders, the pending next and shift percentages, a
    trailing low-water mark of 0 and an add-funds threshold equal to the
    pending next_so_percentage, and deletes the pending order row. -/
theorem pending_order_filled_transition (ex : Exchange) (deal : DealData)
    (sd : SafetyRow) (p : PendingOrderRow) (tp : ℚ) (db : TslDb)
    (hid : p.order_id ≠ "")
    (hact : ¬ deal.active_manual_safety_orders > 0) :
    (evaluate_deal_orders ex deal sd (some p) tp db).requiremonitoring = 0 ∧
    (evaluate_deal_orders ex deal sd (some p) tp db).refreshdealdbdata = true ∧
    (evaluate_deal_orders ex deal sd (some p) tp db).calls = [] ∧
    (∀ sr ∈ db.deal_safety, sr.dealid = deal.id →
      ({ sr with
          last_profit_percentage := 0,
          add_funds_percentage := p.next_so_percentage,
          next_so_percentage := p.next_so_percentage,
          filled_so_count := sd.filled_so_count + p.number_of_so,
          shift_percentage := p.shift_percentage } : SafetyRow) ∈
        (evaluate_deal_orders ex deal sd (some p) tp db).db.deal_safety) ∧
    (∀ q ∈ (evaluate_deal_orders ex deal sd (some p) tp db).db.pending_orders,
      ¬(q.dealid = deal.id ∧ q.order_id = p.order_id)) := by
  have hev : evaluate_deal_orders ex deal sd (some p) tp db =
      ⟨0, true, order_filled_transition db deal.id sd p, []⟩ := by
    simp [evaluate_deal_orders, hid, hact]
  rw [hev]
  refine ⟨rfl, rfl, rfl, ?_, ?_⟩
  · intro sr hsr hdid
    unfold order_filled_transition remove_pending_order_from_db
      update_safetyorder_monitor_in_db update_safetyorder_in_db
    simp only [List.mem_map]
    refine ⟨{ sr with
        next_so_percentage := p.next_so_percentage,
        filled_so_count := sd.filled_so_count + p.number_of_so,
        shift_percentage := p.shift_percentage }, ⟨sr, hsr, ?_⟩, ?_⟩
    · rw [if_pos hdid]
    · rw [if_pos hdid]
  · intro q hq
    unfold order_filled_transition remove_pending_order_from_db
      update_safetyorder_monitor_in_db update_safetyorder_in_db at hq
    simp only [List.mem_filter] at hq
    intro hcon
    rcases hq with ⟨_, hpred⟩
    simp [hcon.1, hcon.2] at hpred

/-- C5 witness: a pending order covering two safety orders resolves as
    filled when the deal no longer shows an active manual safety order. -/
theorem pending_order_filled_transition_witness :
    (evaluate_deal_orders
      ⟨true, "", true, true, "x", none, true, ⟨1, 0, 0, 0, 0⟩, ⟨0, 0, 0⟩, ⟨0, 0⟩, true⟩
      ⟨11, "long", "bought", true, -6, 94, 100, 1, 3, 1, 0, 0, 0⟩
      ⟨11, 1, 2, 6, 5, 1, 0⟩ (some ⟨11, 1, "ord7", 5, 2, 8, 0⟩) 6
      ⟨[], [⟨11, 1, 2, 6, 5, 1, 0⟩], [⟨11, 1, "ord7", 5, 2, 8, 0⟩]⟩).requiremonitoring = 0 ∧
    (⟨11, 1, 0, 8, 8, 3, 0⟩ : SafetyRow) ∈
      (evaluate_deal_orders
        ⟨true, "", true, true, "x", none, true, ⟨1, 0, 0, 0, 0⟩, ⟨0, 0, 0⟩, ⟨0, 0⟩, true⟩
        ⟨11, "long", "bought", true, -6, 94, 100, 1, 3, 1, 0, 0, 0⟩
        ⟨11, 1, 2, 6, 5, 1, 0⟩ (some ⟨11, 1, "ord7", 5, 2, 8, 0⟩) 6
        ⟨[], [⟨11, 1, 2, 6, 5, 1, 0⟩], [⟨11, 1, "ord7", 5, 2, 8, 0⟩]⟩).db.deal_safety := by
  have h := pending_order_filled_transition
    ⟨true, "", true, true, "x", none, true, ⟨1, 0, 0, 0, 0⟩, ⟨0, 0, 0⟩, ⟨0, 0⟩, true⟩
    ⟨11, "long", "bought", true, -6, 94, 100, 1, 3, 1, 0, 0, 0⟩
    ⟨11, 1, 2, 6, 5, 1, 0⟩ ⟨11, 1, "ord7", 5, 2, 8, 0⟩ 6
    ⟨[], [⟨11, 1, 2, 6, 5, 1, 0⟩], [⟨11, 1, "ord7", 5, 2, 8, 0⟩]⟩
    (by decide) (by decide)
  exact ⟨h.1, h.2.2.2.1 ⟨11, 1, 2, 6, 5, 1, 0⟩ (by decide) rfl⟩

/-- C3 (amended): for a deal with a pending order and an active manual
    safety order, evaluate_deal_orders keeps waiting — monitoring reported,
    no remote call, state unchanged — when the total drawdown percentage is
    at or above the pending cancel_at_percentage, and attempts cancellation
    of the order via the exchange platform when the drawdown has recovered
    strictly below that threshold. -/
theorem pending_cancel_threshold (ex : Exchange) (deal : DealData)
    (sd : SafetyRow) (p : PendingOrderRow) (tp : ℚ) (db : TslDb)
    (hid : p.order_id ≠ "")
    (hact : deal.active_manual_safety_orders > 0) :
    (tp ≥ p.cancel_at_percentage →
      evaluate_deal_orders ex deal sd (some p) tp db = ⟨1, false, db, []⟩) ∧
    (tp < p.cancel_at_percentage →
      RemoteCall.cancelOrder deal.id p.order_id ∈
        (evaluate_deal_orders ex deal sd (some p) tp db).calls) := by
  constructor
  · intro hge
    simp [evaluate_deal_orders, hid, hact, hge]
  · intro hlt
    have hnge : ¬ tp ≥ p.cancel_at_percentage := not_le.mpr hlt
    simp only [evaluate_deal_orders, if_pos hid, if_pos hact, if_neg hnge]
    by_cases hc : ex.cancel_order_ok
    · simp [hc]
    · by_cases hf : strLower ex.order_status = "filled" <;> simp [hc, hf]

/-- C3 witness: drawdown 7 at or above the cancel level 2 means waiting with
    no call, and drawdown 1 strictly below it means a cancel attempt. -/
theorem pending_cancel_threshold_witness :
    evaluate_deal_orders
      ⟨true, "", true, true, "x", none, true, ⟨1, 0, 0, 0, 0⟩, ⟨0, 0, 0⟩, ⟨0, 0⟩, true⟩
      ⟨5, "long", "bought", true, -1, 99, 100, 1, 3, 0, 1, 0, 0⟩
      ⟨5, 1, 0, 5, 5, 1, 0⟩ (some ⟨5, 1, "o1", 2, 1, 6, 0⟩) 7
      ⟨[], [⟨5, 1, 0, 5, 5, 1, 0⟩], [⟨5, 1, "o1", 2, 1, 6, 0⟩]⟩ =
      ⟨1, false, ⟨[], [⟨5, 1, 0, 5, 5, 1, 0⟩], [⟨5, 1, "o1", 2, 1, 6, 0⟩]⟩, []⟩ ∧
    RemoteCall.cancelOrder 5 "o1" ∈
      (evaluate_deal_orders
        ⟨true, "", true, true, "x", none, true, ⟨1, 0, 0, 0, 0⟩, ⟨0, 0, 0⟩, ⟨0, 0⟩, true⟩
        ⟨5, "long", "bought", true, -1, 99, 100, 1, 3, 0, 1, 0, 0⟩
        ⟨5, 1, 0, 5, 5, 1, 0⟩ (some ⟨5, 1, "o1", 2, 1, 6, 0⟩) 1
        ⟨[], [⟨5, 1, 0, 5, 5, 1, 0⟩], [⟨5, 1, "o1", 2, 1, 6, 0⟩]⟩).calls :=
  ⟨(pending_cancel_threshold
      ⟨true, "", true, true, "x", none, true, ⟨1, 0, 0, 0, 0⟩, ⟨0, 0, 0⟩, ⟨0, 0⟩, true⟩
      ⟨5, "long", "bought", true, -1, 99, 100, 1, 3, 0, 1, 0, 0⟩
      ⟨5, 1, 0, 5, 5, 1, 0⟩ ⟨5, 1, "o1", 2, 1, 6, 0⟩ 7
      ⟨[], [⟨5, 1, 0, 5, 5, 1, 0⟩], [⟨5, 1, "o1", 2, 1, 6, 0⟩]⟩
      (by decide) (by decide)).1 (by decide),
   (pending_cancel_threshold
      ⟨true, "", true, true, "x", none, true, ⟨1, 0, 0, 0, 0⟩, ⟨0, 0, 0⟩, ⟨0, 0⟩, true⟩
      ⟨5, "long", "bought", true, -1, 99, 100, 1, 3, 0, 1, 0, 0⟩
      ⟨5, 1, 0, 5, 5, 1, 0⟩ ⟨5, 1, "o1", 2, 1, 6, 0⟩ 1
      ⟨[], [⟨5, 1, 0, 5, 5, 1, 0⟩], [⟨5, 1, "o1", 2, 1, 6, 0⟩]⟩
      (by decide) (by decide)).2 (by decide)⟩

/-- C3 counterexample: with total drawdown 1 strictly below the pending
    cancel_at_percentage of 2 and an active manual safety order, the claim
    expects waiting with no remote call, but evaluate_deal_orders issues a
    cancel-order call to the exchange platform. -/
theorem pending_cancel_threshold_counterexample :
    (1 : ℚ) < (2 : ℚ) ∧
    (evaluate_deal_orders
      ⟨true, "", true, true, "x", none, true, ⟨1, 0, 0, 0, 0⟩, ⟨0, 0, 0⟩, ⟨0, 0⟩, true⟩
      ⟨6, "long", "bought", true, -1, 99, 100, 1, 3, 0, 1, 0, 0⟩
      ⟨6, 1, 0, 5, 5, 1, 0⟩ (some ⟨6, 1, "o2", 2, 1, 6, 0⟩) 1
      ⟨[], [⟨6, 1, 0, 5, 5, 1, 0⟩], [⟨6, 1, "o2", 2, 1, 6, 0⟩]⟩).calls =
      [RemoteCall.cancelOrder 6 "o2"] := by
  constructor
  · norm_num
  · decide

/-- C4 (amended): whenever a profit-config entry matched and the current
    profit strictly exceeds the stored last profit percentage, for a deal
    without close strategy the remote stop-loss/take-profit update is issued
    unconditionally with the computed candidate values; the conditions "the
    stop-loss magnitude increased and differs" and "the take-profit strictly
    exceeds the previous value" only select what goes into the notification
    message and do not gate the remote call. -/
theorem profit_update_always_issued (ex : Exchange) (bot_tp : ℚ)
    (deal : DealData) (ddb : ProfitRow) (pc : ProfitConfigEntry) (db : TslDb)
    (hinc : deal.actual_profit_percentage > ddb.last_profit_percentage)
    (hcs : deal.close_strategy_list_len = 0) :
    RemoteCall.updateDeal deal.id ex.sldata.new_sl ex.tpdata.new_tp pc.sl_timeout ∈
      (handle_deal_profit ex bot_tp deal ddb (some pc) db).2.2 := by
  simp only [handle_deal_profit, if_pos hinc, hcs]
  by_cases hd : |ex.tpdata.current_tp - deal.actual_profit_percentage| ≤ (15 : ℚ) / 100 <;>
    simp only [hd, if_true, if_false, ite_true, ite_false, Nat.lt_irrefl,
      update_deal_profit] <;>
    cases hr : ex.update_deal_response <;>
    simp [hr] <;> split <;> simp

/-- C4 witness: profit increased from 0 to 3 with a matching entry and no
    close strategy, so the update call is in the trace. -/
theorem profit_update_always_issued_witness :
    RemoteCall.updateDeal 77 (-1) 2 0 ∈
      (handle_deal_profit
        ⟨true, "", true, true, "", none, true, ⟨0, 0, 0, 0, 0⟩, ⟨-1, -1, 1⟩, ⟨2, 2⟩, true⟩
        1 ⟨77, "long", "bought", true, 3, 100, 100, 5, 3, 0, 0, 0, 0⟩
        ⟨77, 1, 0, 0, 0⟩ (some ⟨2, 0, 1, 0, 0, 0⟩) ⟨[⟨77, 1, 0, 0, 0⟩], [], []⟩).2.2 :=
  profit_update_always_issued
    ⟨true, "", true, true, "", none, true, ⟨0, 0, 0, 0, 0⟩, ⟨-1, -1, 1⟩, ⟨2, 2⟩, true⟩
    1 ⟨77, "long", "bought", true, 3, 100, 100, 5, 3, 0, 0, 0, 0⟩
    ⟨77, 1, 0, 0, 0⟩ ⟨2, 0, 1, 0, 0, 0⟩ ⟨[⟨77, 1, 0, 0, 0⟩], [], []⟩
    (by decide) rfl

/-- C4 counterexample: the candidate stop-loss equals the current one (no
    magnitude increase) and the candidate take-profit does not exceed the
    current one, yet handle_deal_profit still issues the remote update of
    those values, contradicting the claim that no remote update is issued
    when neither condition holds. -/
theorem profit_update_always_issued_counterexample :
    (Exchange.sldata ⟨true, "", true, true, "", none, true, ⟨0, 0, 0, 0, 0⟩,
        ⟨-1, -1, 1⟩, ⟨2, 2⟩, true⟩).new_sl =
      (Exchange.sldata ⟨true, "", true, true, "", none, true, ⟨0, 0, 0, 0, 0⟩,
        ⟨-1, -1, 1⟩, ⟨2, 2⟩, true⟩).current_sl ∧
    (Exchange.tpdata ⟨true, "", true, true, "", none, true, ⟨0, 0, 0, 0, 0⟩,
        ⟨-1, -1, 1⟩, ⟨2, 2⟩, true⟩).new_tp ≤
      (Exchange.tpdata ⟨true, "", true, true, "", none, true, ⟨0, 0, 0, 0, 0⟩,
        ⟨-1, -1, 1⟩, ⟨2, 2⟩, true⟩).current_tp ∧
    (handle_deal_profit
      ⟨true, "", true, true, "", none, true, ⟨0, 0, 0, 0, 0⟩, ⟨-1, -1, 1⟩, ⟨2, 2⟩, true⟩
      1 ⟨78, "long", "bought", true, 3, 100, 100, 5, 3, 0, 0, 0, 0⟩
      ⟨78, 1, 0, 0, 0⟩ (some ⟨2, 0, 1, 0, 0, 0⟩) ⟨[⟨78, 1, 0, 0, 0⟩], [], []⟩).2.2 =
      [RemoteCall.updateDeal 78 (-1) 2 0] := by
  refine ⟨rfl, by norm_num, ?_⟩
  have habs : ¬ |(2 : ℚ) - 3| ≤ (15 : ℚ) / 100 := by
    rw [show |(2 : ℚ) - 3| = 1 by rw [abs_eq] <;> norm_num]
    norm_num
  simp [handle_deal_profit, update_deal_profit, habs]

/-- C8: when a matching profit-config entry exists, the profit strictly
    increased, the deal has no close strategy, and the remote update fails
    (the platform returns an error, or echoes a stop-loss, take-profit or
    timeout differing from the requested ones), then no ProfitState record
    is mutated — the database is returned unchanged, so update_profit_in_db
    is never executed — and the deal is still reported as requiring
    monitoring, to be re-evaluated next cycle. -/
theorem profit_update_failure_no_mutation (ex : Exchange) (bot_tp : ℚ)
    (deal : DealData) (ddb : ProfitRow) (pc : ProfitConfigEntry) (db : TslDb)
    (hinc : deal.actual_profit_percentage > ddb.last_profit_percentage)
    (hcs : deal.close_strategy_list_len = 0)
    (hfail : ex.update_deal_response = none ∨
      ∃ resp, ex.update_deal_response = some resp ∧
        (resp.stop_loss_percentage ≠ ex.sldata.new_sl ∨
         resp.take_profit ≠ ex.tpdata.new_tp ∨
         resp.stop_loss_timeout_in_seconds ≠ pc.sl_timeout)) :
    (handle_deal_profit ex bot_tp deal ddb (some pc) db).2.1 = db ∧
    (handle_deal_profit ex bot_tp deal ddb (some pc) db).1 = 1 := by
  have hu : (update_deal_profit ex deal ex.sldata.new_sl ex.tpdata.new_tp
      pc.sl_timeout).1 = false := by
    rcases hfail with hnone | ⟨resp, hresp, hdiff⟩
    · simp [update_deal_profit, hnone]
    · simp only [update_deal_profit, hresp]
      rw [if_pos hdiff]
  simp only [handle_deal_profit, if_pos hinc, hcs]
  by_cases hd : |ex.tpdata.current_tp - deal.actual_profit_percentage| ≤ (15 : ℚ) / 100 <;>
    simp [hd, hu, Prod.ext_iff]

/-- C8 witness: the platform echoes a different stop-loss, so the update
    fails and the stored ProfitState is untouched. -/
theorem profit_update_failure_no_mutation_witness :
    (handle_deal_profit
      ⟨true, "", true, true, "", some ⟨-9, 2, 0⟩, true, ⟨0, 0, 0, 0, 0⟩,
        ⟨-1, -2, 2⟩, ⟨2, 2⟩, true⟩
      1 ⟨79, "long", "bought", true, 3, 100, 100, 5, 3, 0, 0, 0, 0⟩
      ⟨79, 1, 0, 0, 0⟩ (some ⟨2, 0, 1, 0, 0, 0⟩)
      ⟨[⟨79, 1, 0, 0, 0⟩], [], []⟩).2.1 = ⟨[⟨79, 1, 0, 0, 0⟩], [], []⟩ :=
  (profit_update_failure_no_mutation
    ⟨true, "", true, true, "", some ⟨-9, 2, 0⟩, true, ⟨0, 0, 0, 0, 0⟩,
      ⟨-1, -2, 2⟩, ⟨2, 2⟩, true⟩
    1 ⟨79, "long", "bought", true, 3, 100, 100, 5, 3, 0, 0, 0, 0⟩
    ⟨79, 1, 0, 0, 0⟩ ⟨2, 0, 1, 0, 0, 0⟩ ⟨[⟨79, 1, 0, 0, 0⟩], [], []⟩
    (by decide)

    rfl (Or.inr ⟨⟨-9, 2, 0⟩, rfl, Or.inl (by decide)⟩)).1

/-- C10: an eligible, already-known deal whose actual profit percentage is
    exactly 0 is dispatched to neither the profit engine nor the
    safety-order engine — the profit branch needs strictly positive profit
    and the safety branch strictly negative — so it contributes 0 to the
    monitored count, stays in the current-deals list and its state rows
    survive the housekeeping deletion; the same holds for a positive-profit
    deal when the profit config is empty and for a negative-profit deal when
    the safety config is empty. -/
theorem zero_profit_deal_skipped (ex : Exchange)
    (pc : List ProfitConfigEntry) (sc : List SafetyConfigEntry)
    (btp : ℚ) (bot : ℤ) (deal : DealData) (db : TslDb)
    (hstrat : deal.strategy = "short" ∨ deal.strategy = "long")
    (hnum : deal.profit_percentage_is_number = true)
    (hstatus : strLower deal.status = "bought" ∨
      strLower deal.status = "close_strategy_activated")
    (hknown : is_new_deal db deal.id = false)
    (hskip : deal.actual_profit_percentage = 0 ∨
      (deal.actual_profit_percentage > 0 ∧ pc = []) ∨
      (deal.actual_profit_percentage < 0 ∧ sc = [])) :
    process_deals ex pc sc btp bot [deal] db =
      some (0, remove_closed_deals db bot [deal.id], []) ∧
    (∀ r ∈ db.deal_profit, r.dealid = deal.id →
      r ∈ (remove_closed_deals db bot [deal.id]).deal_profit) ∧
    (∀ r ∈ db.deal_safety, r.dealid = deal.id →
      r ∈ (remove_closed_deals db bot [deal.id]).deal_safety) ∧
    (∀ r ∈ db.pending_orders, r.dealid = deal.id →
      r ∈ (remove_closed_deals db bot [deal.id]).pending_orders) := by
  have hstep : process_single_deal ex pc sc btp bot deal db =
      some ⟨true, 0, db, []⟩ := by
    have h1 : ¬ (deal.strategy ≠ "short" ∧ deal.strategy ≠ "long") := by
      rcases hstrat with h | h <;> simp [h]
    have h3 : ¬ (strLower deal.status ≠ "bought" ∧
        strLower deal.status ≠ "close_strategy_activated") := by
      rcases hstatus with h | h <;> simp [h]
    simp only [process_single_deal, if_neg h1, hnum, if_neg h3, hknown]
    rcases hskip with h0 | ⟨hpos, hpc⟩ | ⟨hneg, hsc⟩
    · simp [h0]
    · simp [hpc, not_lt.mpr (le_of_lt hpos)]
    · have : ¬ deal.actual_profit_percentage > 0 := not_lt.mpr (le_of_lt hneg)
      simp [hsc, this]
  refine ⟨?_, ?_, ?_, ?_⟩
  · simp [process_deals, hstep]
  · intro r hr hid
    simp only [remove_closed_deals, if_neg (by simp : ¬ ([deal.id] : List ℤ) = [])]
    simp [List.mem_filter, hr, hid]
  · intro r hr hid
    simp only [remove_closed_deals, if_neg (by simp : ¬ ([deal.id] : List ℤ) = [])]
    simp [List.mem_filter, hr, hid]
  · intro r hr hid
    simp only [remove_closed_deals, if_neg (by simp : ¬ ([deal.id] : List ℤ) = [])]
    simp [List.mem_filter, hr, hid]

/-- C10 witness: a known deal at exactly 0 percent profit is kept, not
    monitored, and its rows survive housekeeping. -/
theorem zero_profit_deal_skipped_witness :
    process_deals
      ⟨true, "", true, true, "x", none, true, ⟨1, 0, 0, 0, 0⟩, ⟨0, 0, 0⟩, ⟨0, 0⟩, true⟩
      [⟨2, 0, 1, 0, 0, 0⟩] [⟨0, 0, 0, 1/2⟩] 1 4
      [⟨21, "long", "bought", true, 0, 100, 100, 1, 3, 0, 0, 0, 0⟩]
      ⟨[⟨21, 4, 0, 0, 0⟩], [⟨21, 4, 0, 5, 5, 0, 0⟩], []⟩ =
      some (0, ⟨[⟨21, 4, 0, 0, 0⟩], [⟨21, 4, 0, 5, 5, 0, 0⟩], []⟩, []) := by
  have h := zero_profit_deal_skipped
    ⟨true, "", true, true, "x", none, true, ⟨1, 0, 0, 0, 0⟩, ⟨0, 0, 0⟩, ⟨0, 0⟩, true⟩
    [⟨2, 0, 1, 0, 0, 0⟩] [⟨0, 0, 0, 1/2⟩] 1 4
    ⟨21, "long", "bought", true, 0, 100, 100, 1, 3, 0, 0, 0, 0⟩
    ⟨[⟨21, 4, 0, 0, 0⟩], [⟨21, 4, 0, 5, 5, 0, 0⟩], []⟩
    (Or.inr rfl) rfl (Or.inl rfl) (by decide) (Or.inl rfl)
  rw [h.1]
  simp [remove_closed_deals]

theorem pendingRows_update_safetyorder (db : TslDb) (i : ℤ) (f : ℤ) (n s : ℚ) (d : ℤ) :
    pendingRows (update_safetyorder_in_db db i f n s) d = pendingRows db d := rfl

theorem pendingRows_update_monitor (db : TslDb) (i : ℤ) (l a : ℚ) (d : ℤ) :
    pendingRows (update_safetyorder_monitor_in_db db i l a) d = pendingRows db d := rfl

theorem pendingRows_remove_self (db : TslDb) (i : ℤ) (oid : String) :
    pendingRows (remove_pending_order_from_db db i oid) i =
      (pendingRows db i).filter (fun r => !(decide (r.order_id = oid))) := by
  unfold pendingRows remove_pending_order_from_db
  simp only [List.filter_filter]
  apply List.filter_congr
  intro r _
  by_cases h1 : r.dealid = i <;> by_cases h2 : r.order_id = oid <;> simp [h1, h2]

theorem pendingRows_remove_other (db : TslDb) (i : ℤ) (oid : String) (d : ℤ)
    (hne : d ≠ i) :
    pendingRows (remove_pending_order_from_db db i oid) d = pendingRows db d := by
  unfold pendingRows remove_pending_order_from_db
  simp only [List.filter_filter]
  apply List.filter_congr
  intro r _
  by_cases h1 : r.dealid = d
  · have : ¬ r.dealid = i := by rw [h1]; exact hne
    simp [h1, this, hne]
  · simp [h1]

theorem pendingRows_order_filled_transition (db : TslDb) (i : ℤ) (sd : SafetyRow)
    (o : PendingOrderRow) :
    pendingRows (order_filled_transition db i sd o) i =
      (pendingRows db i).filter (fun r => !(decide (r.order_id = o.order_id))) := by
  unfold order_filled_transition
  exact pendingRows_remove_self _ i o.order_id

theorem pendingRows_order_filled_transition_other (db : TslDb) (i : ℤ)
    (sd : SafetyRow) (o : PendingOrderRow) (d : ℤ) (hne : d ≠ i) :
    pendingRows (order_filled_transition db i sd o) d = pendingRows db d := by
  unfold order_filled_transition
  exact pendingRows_remove_other _ i o.order_id d hne

theorem get_pending_eq_head (db : TslDb) (d : ℤ) :
    get_pending_order_db_data db d = (pendingRows db d).head? := rfl

/-- evaluate_deal_orders only ever issues cancel-order and order-status
    calls, never an add-funds call. -/
theorem evaluate_calls_no_addfunds (ex : Exchange) (deal : DealData)
    (sd : SafetyRow) (od : Option PendingOrderRow) (tp : ℚ) (db : TslDb) (i : ℤ) :
    RemoteCall.addFunds i ∉ (evaluate_deal_orders ex deal sd od tp db).calls := by
  cases od with
  | none => simp [evaluate_deal_orders]
  | some o =>
    unfold evaluate_deal_orders
    by_cases h1 : o.order_id ≠ "" <;>
      by_cases h2 : deal.active_manual_safety_orders > 0 <;>
      by_cases h3 : tp ≥ o.cancel_at_percentage <;>
      by_cases h4 : ex.cancel_order_ok = true <;>
      by_cases h5 : strLower ex.order_status = "filled" <;>
      simp [h1, h2, h3, h4, h5]

/-- When evaluate_deal_orders reports monitoring, it did not change the
    database. -/
theorem evaluate_monitor_db_unchanged (ex : Exchange) (deal : DealData)
    (sd : SafetyRow) (od : Option PendingOrderRow) (tp : ℚ) (db : TslDb)
    (h : (evaluate_deal_orders ex deal sd od tp db).requiremonitoring ≠ 0) :
    (evaluate_deal_orders ex deal sd od tp db).db = db := by
  cases od with
  | none => rfl
  | some o =>
    unfold evaluate_deal_orders at h ⊢
    by_cases h1 : o.order_id ≠ "" <;>
      by_cases h2 : deal.active_manual_safety_orders > 0 <;>
      by_cases h3 : tp ≥ o.cancel_at_percentage <;>
      by_cases h4 : ex.cancel_order_ok = true <;>
      by_cases h5 : strLower ex.order_status = "filled" <;>
      simp [h1, h2, h3, h4, h5] at h ⊢

/-- evaluate_deal_orders never touches the pending rows of another deal. -/
theorem evaluate_pending_other (ex : Exchange) (deal : DealData)
    (sd : SafetyRow) (od : Option PendingOrderRow) (tp : ℚ) (db : TslDb)
    (e : ℤ) (hne : e ≠ deal.id) :
    pendingRows (evaluate_deal_orders ex deal sd od tp db).db e =
      pendingRows db e := by
  cases od with
  | none => rfl
  | some o =>
    by_cases h1 : o.order_id ≠ ""
    · by_cases h2 : deal.active_manual_safety_orders > 0
      · by_cases h3 : tp ≥ o.cancel_at_percentage
        · simp [evaluate_deal_orders, h1, h2, h3]
        · by_cases h4 : ex.cancel_order_ok = true
          · simp only [evaluate_deal_orders, if_pos h1, if_pos h2, if_neg h3,
              if_pos h4]
            rw [pendingRows_remove_other _ _ _ _ hne, pendingRows_update_monitor]
          · by_cases h5 : strLower ex.order_status = "filled"
            · simp only [evaluate_deal_orders, if_pos h1, if_pos h2, if_neg h3,
                if_neg h4, if_pos h5]
              exact pendingRows_order_filled_transition_other db deal.id sd o e hne
            · simp [evaluate_deal_orders, h1, h2, h3, h4, h5]
      · simp only [evaluate_deal_orders, if_pos h1, if_neg h2]
        exact pendingRows_order_filled_transition_other db deal.id sd o e hne
    · simp [evaluate_deal_orders, h1]

/-- When a single pending row with a non-empty order id exists for the deal,
    evaluate_deal_orders either leaves everything unchanged and reports
    monitoring, or resolves the pending order, leaving the deal with no
    pending row. -/
theorem evaluate_resolves_pending (ex : Exchange) (deal : DealData)
    (sd : SafetyRow) (p : PendingOrderRow) (tp : ℚ) (db : TslDb)
    (hone : pendingRows db deal.id = [p]) (hid : p.order_id ≠ "") :
    ((evaluate_deal_orders ex deal sd (some p) tp db).requiremonitoring ≠ 0 ∧
     (evaluate_deal_orders ex deal sd (some p) tp db).db = db) ∨
    pendingRows (evaluate_deal_orders ex deal sd (some p) tp db).db deal.id = [] := by
  have hfilter : (pendingRows db deal.id).filter
      (fun r => !(decide (r.order_id = p.order_id))) = [] := by
    rw [hone]
    simp
  by_cases h2 : deal.active_manual_safety_orders > 0
  · by_cases h3 : tp ≥ p.cancel_at_percentage
    · refine Or.inl ⟨?_, ?_⟩ <;> simp [evaluate_deal_orders, hid, h2, h3]
    · by_cases h4 : ex.cancel_order_ok = true
      · refine Or.inr ?_
        simp only [evaluate_deal_orders, if_pos hid, if_pos h2, if_neg h3, if_pos h4]
        rw [pendingRows_remove_self, pendingRows_update_monitor]
        exact hfilter
      · by_cases h5 : strLower ex.order_status = "filled"
        · refine Or.inr ?_
          simp only [evaluate_deal_orders, if_pos hid, if_pos h2, if_neg h3,
            if_neg h4, if_pos h5]
          rw [pendingRows_order_filled_transition]
          exact hfilter
        · refine Or.inl ⟨?_, ?_⟩ <;>
            simp [evaluate_deal_orders, hid, h2, h3, h4, h5]
  · refine Or.inr ?_
    simp only [evaluate_deal_orders, if_pos hid, if_neg h2]
    rw [pendingRows_order_filled_transition]
    exact hfilter

theorem update_monitor_pending_table (db : TslDb) (i : ℤ) (l a : ℚ) :
    (update_safetyorder_monitor_in_db db i l a).pending_orders =
      db.pending_orders := rfl

theorem update_safetyorder_pending_table (db : TslDb) (i : ℤ) (f : ℤ) (n s : ℚ) :
    (update_safetyorder_in_db db i f n s).pending_orders = db.pending_orders := rfl

/-- handle_deal_safety either leaves the pending_orders table unchanged or
    appends exactly one new row for the processed deal, carrying a non-empty
    order id. -/
theorem handle_pending_table (ex : Exchange) (deal : DealData) (bot : ℤ)
    (dd : SafetyRow) (c : SafetyConfigEntry) (tp : ℚ) (db : TslDb) :
    (handle_deal_safety ex deal bot dd c tp db).2.1.pending_orders =
        db.pending_orders ∨
      (ex.deal_order_id ≠ "" ∧
        (handle_deal_safety ex deal bot dd c tp db).2.1.pending_orders =
          db.pending_orders ++
            [⟨deal.id, bot, ex.deal_order_id, ex.sodata.current_so_percentage,
              ex.sodata.number_of_so, ex.sodata.next_so_percentage,
              dd.shift_percentage⟩]) := by
  by_cases h1 : tp > dd.last_profit_percentage
  · by_cases h6 : |dd.next_so_percentage + c.initial_buy_percentage +
        round2 ((tp - (dd.next_so_percentage + c.initial_buy_percentage)) *
          c.buy_increment_factor)| > |dd.add_funds_percentage| <;>
      simp [handle_deal_safety, h1, h6, update_monitor_pending_table]
  · by_cases h2 : tp ≤ dd.add_funds_percentage
    · by_cases h3 : tp < dd.next_so_percentage
      · simp [handle_deal_safety, h1, h2, h3, update_monitor_pending_table]
      · by_cases h4 : ex.limitdata_ok = true
        · by_cases h5 : ex.add_funds_ok = true
          · by_cases h7 : ex.deal_order_id ≠ ""
            · refine Or.inr ⟨h7, ?_⟩
              simp [handle_deal_safety, h1, h2, h3, h4, h5, h7,
                add_pending_order_in_db]
            · simp [handle_deal_safety, h1, h2, h3, h4, h5, h7,
                update_monitor_pending_table, update_safetyorder_pending_table]
          · simp [handle_deal_safety, h1, h2, h3, h4, h5]
        · simp [handle_deal_safety, h1, h2, h3, h4]
    · simp [handle_deal_safety, h1, h2]

/-- safety_trailing_reset does not touch the pending_orders table. -/
theorem safety_trailing_reset_pending (i : ℤ) (dd : SafetyRow) (db : TslDb) :
    (safety_trailing_reset i dd db).pending_orders = db.pending_orders := by
  unfold safety_trailing_reset
  split_ifs <;> rfl

/-- The post-evaluation stage either leaves the pending_orders table
    unchanged or appends exactly one new row for the processed deal with a
    non-empty order id. -/
theorem stage_pending_table (ex : Exchange) (cfg : List SafetyConfigEntry)
    (deal : DealData) (bot : ℤ) (tp : ℚ) (dd : SafetyRow) (db : TslDb) :
    (safety_so_stage ex cfg deal bot tp dd db).2.1.pending_orders =
        db.pending_orders ∨
      (ex.deal_order_id ≠ "" ∧
        (safety_so_stage ex cfg deal bot tp dd db).2.1.pending_orders =
          db.pending_orders ++
            [⟨deal.id, bot, ex.deal_order_id, ex.sodata.current_so_percentage,
              ex.sodata.number_of_so, ex.sodata.next_so_percentage,
              dd.shift_percentage⟩]) := by
  by_cases hmax : dd.filled_so_count = deal.max_safety_orders
  · simp [safety_so_stage, hmax]
  · by_cases hrel : round2 (tp - dd.next_so_percentage) ≥ 0
    · cases hset : get_settings (fun e : SafetyConfigEntry => e.activation_percentage)
          (fun e => e.activation_so_count) cfg
          (round2 (tp - dd.next_so_percentage)) dd.filled_so_count with
      | none =>
        refine Or.inl ?_
        simp [safety_so_stage, hmax, hrel, hset, safety_trailing_reset_pending]
      | some c =>
        have : safety_so_stage ex cfg deal bot tp dd db =
            handle_deal_safety ex deal bot dd c tp db := by
          simp [safety_so_stage, hmax, hrel, hset]
        rw [this]
        exact handle_pending_table ex deal bot dd c tp db
    · refine Or.inl ?_
      simp [safety_so_stage, hmax, hrel, safety_trailing_reset_pending]

/-- The total drawdown percentage computed at the start of
    process_deal_for_safety_order. -/
def total_profit_of (deal : DealData) : ℚ :=
  round2 |(deal.current_price / deal.base_order_average_price) * 100 - 100|

/-- Unfolding of process_deal_for_safety_order when the safety row of the
    deal exists. -/
theorem process_safety_spec (ex : Exchange) (cfg : List SafetyConfigEntry)
    (deal : DealData) (bot : ℤ) (db : TslDb) (sd0 : SafetyRow)
    (hs : get_safety_db_data db deal.id = some sd0) :
    process_deal_for_safety_order ex cfg deal bot db =
      (if (evaluate_deal_orders ex deal sd0 (get_pending_order_db_data db deal.id)
            (total_profit_of deal) db).requiremonitoring ≠ 0 then
        some (1,
          (evaluate_deal_orders ex deal sd0 (get_pending_order_db_data db deal.id)
            (total_profit_of deal) db).db,
          (evaluate_deal_orders ex deal sd0 (get_pending_order_db_data db deal.id)
            (total_profit_of deal) db).calls)
      else
        match (if (evaluate_deal_orders ex deal sd0
              (get_pending_order_db_data db deal.id) (total_profit_of deal)
              db).refreshdealdbdata then
            get_safety_db_data (evaluate_deal_orders ex deal sd0
              (get_pending_order_db_data db deal.id) (total_profit_of deal)
              db).db deal.id
          else some sd0) with
        | none => none
        | some dd =>
          some ((safety_so_stage ex cfg deal bot (total_profit_of deal) dd
              (evaluate_deal_orders ex deal sd0
                (get_pending_order_db_data db deal.id) (total_profit_of deal)
                db).db).1,
            (safety_so_stage ex cfg deal bot (total_profit_of deal) dd
              (evaluate_deal_orders ex deal sd0
                (get_pending_order_db_data db deal.id) (total_profit_of deal)
                db).db).2.1,
            (evaluate_deal_orders ex deal sd0
              (get_pending_order_db_data db deal.id) (total_profit_of deal)
              db).calls ++
              (safety_so_stage ex cfg deal bot (total_profit_of deal) dd
                (evaluate_deal_orders ex deal sd0
                  (get_pending_order_db_data db deal.id) (total_profit_of deal)
                  db).db).2.2)) := by
  unfold process_deal_for_safety_order
  rw [hs]
  rfl

/-- C1: at-most-one pending order per deal.  If the deal enters the safety
    evaluation with at most one pending_orders row, each with a non-empty
    order id, then after process_deal_for_safety_order the deal again has at
    most one pending row, every stored row has a non-empty order id, rows of
    other deals are untouched, and whenever the pending-order evaluation
    step left a pending row in place (the order was not resolved), the
    function returned directly after evaluate_deal_orders reporting
    monitoring, with no add-funds call issued — a new order is only ever
    placed after the outstanding one was first resolved and its row
    deleted. -/
theorem pending_order_at_most_one (ex : Exchange) (cfg : List SafetyConfigEntry)
    (deal : DealData) (bot : ℤ) (db : TslDb) (sd0 : SafetyRow)
    (mon : ℕ) (db2 : TslDb) (calls : List RemoteCall)
    (hlen : (pendingRows db deal.id).length ≤ 1)
    (hne : ∀ p ∈ pendingRows db deal.id, p.order_id ≠ "")
    (hs : get_safety_db_data db deal.id = some sd0)
    (hrun : process_deal_for_safety_order ex cfg deal bot db =
      some (mon, db2, calls)) :
    (pendingRows db2 deal.id).length ≤ 1 ∧
    (∀ p ∈ pendingRows db2 deal.id, p.order_id ≠ "") ∧
    (∀ e, e ≠ deal.id → pendingRows db2 e = pendingRows db e) ∧
    (pendingRows (evaluate_deal_orders ex deal sd0
        (get_pending_order_db_data db deal.id) (total_profit_of deal) db).db
        deal.id ≠ [] →
      mon = 1 ∧
      db2 = (evaluate_deal_orders ex deal sd0
        (get_pending_order_db_data db deal.id) (total_profit_of deal) db).db ∧
      calls = (evaluate_deal_orders ex deal sd0
        (get_pending_order_db_data db deal.id) (total_profit_of deal) db).calls ∧
      RemoteCall.addFunds deal.id ∉ calls) := by
  rw [process_safety_spec ex cfg deal bot db sd0 hs] at hrun
  set r := evaluate_deal_orders ex deal sd0 (get_pending_order_db_data db deal.id)
    (total_profit_of deal) db with hr
  by_cases hreq : r.requiremonitoring ≠ 0
  · rw [if_pos hreq] at hrun
    simp only [Option.some.injEq, Prod.mk.injEq] at hrun
    obtain ⟨hmon, hdb2, hcalls⟩ := hrun
    have hdbeq : r.db = db := evaluate_monitor_db_unchanged ex deal sd0
      (get_pending_order_db_data db deal.id) (total_profit_of deal) db hreq
    refine ⟨?_, ?_, ?_, ?_⟩
    · rw [← hdb2, hdbeq]; exact hlen
    · rw [← hdb2, hdbeq]; exact hne
    · intro e _; rw [← hdb2, hdbeq]
    · intro _
      refine ⟨hmon.symm, hdb2.symm, hcalls.symm, ?_⟩
      rw [← hcalls]
      exact evaluate_calls_no_addfunds ex deal sd0
        (get_pending_order_db_data db deal.id) (total_profit_of deal) db deal.id
  · rw [if_neg hreq] at hrun
    push_neg at hreq
    -- The evaluation step left the deal with no pending row.
    have hempty : pendingRows r.db deal.id = [] := by
      cases hpr : pendingRows db deal.id with
      | nil =>
        have hnone : get_pending_order_db_data db deal.id = none := by
          rw [get_pending_eq_head, hpr]; rfl
        have : r = ⟨0, false, db, []⟩ := by rw [hr, hnone]; rfl
        rw [this]
        exact hpr
      | cons p rest =>
        have hrest : rest = [] := by
          cases rest with
          | nil => rfl
          | cons q t => rw [hpr] at hlen; simp at hlen
        subst hrest
        have hsome : get_pending_order_db_data db deal.id = some p := by
          rw [get_pending_eq_head, hpr]; rfl
        have hid : p.order_id ≠ "" := hne p (by rw [hpr]; exact List.mem_singleton_self p)
        have hres := evaluate_resolves_pending ex deal sd0 p (total_profit_of deal)
          db hpr hid
        rw [← hsome] at hres
        rw [← hr] at hres
        rcases hres with ⟨habs, _⟩ | hdone
        · exact absurd hreq habs
        · exact hdone
    cases hgs : (if r.refreshdealdbdata = true then
        get_safety_db_data r.db deal.id else some sd0) with
    | none => rw [hgs] at hrun; exact absurd hrun (by simp)
    | some dd =>
      rw [hgs] at hrun
      simp only [Option.some.injEq, Prod.mk.injEq] at hrun
      obtain ⟨hmon, hdb2, hcalls⟩ := hrun
      have hstage := stage_pending_table ex cfg deal bot (total_profit_of deal) dd r.db
      refine ⟨?_, ?_, ?_, ?_⟩
      · rcases hstage with htab | ⟨_, htab⟩
        · unfold pendingRows
          rw [← hdb2, htab]
          have : (r.db.pending_orders.filter
              (fun q => decide (q.dealid = deal.id))).length = 0 := by
            have := hempty
            unfold pendingRows at this
            rw [this]
            rfl
          omega
        · unfold pendingRows
          rw [← hdb2, htab, List.filter_append]
          have h0 : r.db.pending_orders.filter
              (fun q => decide (q.dealid = deal.id)) = [] := hempty
          rw [h0]
          simp
      · intro p hp
        rcases hstage with htab | ⟨hidne, htab⟩
        · rw [← hdb2] at hp
          unfold pendingRows at hp hempty
          rw [htab, hempty] at hp
          exact absurd hp (List.not_mem_nil p)
        · rw [← hdb2] at hp
          unfold pendingRows at hp hempty
          rw [htab, List.filter_append, hempty] at hp
          simp only [List.nil_append, List.mem_filter] at hp
          rcases hp with ⟨hpmem, _⟩
          simp only [List.mem_singleton] at hpmem
          rw [hpmem]
          exact hidne
      · intro e hedne
        have hother : pendingRows r.db e = pendingRows db e := by
          rw [hr]
          exact evaluate_pending_other ex deal sd0
            (get_pending_order_db_data db deal.id) (total_profit_of deal) db e hedne
        rcases hstage with htab | ⟨_, htab⟩
        · unfold pendingRows
          rw [← hdb2, htab]
          unfold pendingRows at hother
          rw [hother]
        · unfold pendingRows
          rw [← hdb2, htab, List.filter_append]
          unfold pendingRows at hother
          rw [hother]
          have : ([(⟨deal.id, bot, ex.deal_order_id, ex.sodata.current_so_percentage,
              ex.sodata.number_of_so, ex.sodata.next_so_percentage,
              dd.shift_percentage⟩ : PendingOrderRow)].filter
              (fun q => decide (q.dealid = e))) = [] := by
            simp
            intro hc
            exact absurd hc.symm hedne
          rw [this, List.append_nil]
      · intro hcon
        exact absurd hempty hcon

/-- C1 witness: a deal with exactly one outstanding pending order (drawdown
    10 still above the cancel level 5) keeps exactly that row: the
    evaluation returns directly after the pending-order step with
    monitoring and no call. -/
theorem pending_order_at_most_one_witness :
    (pendingRows ⟨[], [⟨13, 1, 0, 5, 5, 1, 0⟩], [⟨13, 1, "w1", 5, 1, 8, 0⟩]⟩ 13).length ≤ 1 ∧
    (∀ p ∈ pendingRows ⟨[], [⟨13, 1, 0, 5, 5, 1, 0⟩], [⟨13, 1, "w1", 5, 1, 8, 0⟩]⟩ 13,
      p.order_id ≠ "") := by
  have htp : total_profit_of ⟨13, "long", "bought", true, -10, 90, 100, 1, 3, 0, 1, 0, 0⟩ = 10 := by
    show round2 |(90 : ℚ) / 100 * 100 - 100| = 10
    rw [show |(90 : ℚ) / 100 * 100 - 100| = 10 by rw [abs_eq] <;> norm_num]
    norm_num [round2, round_eq]
  have hrun : process_deal_for_safety_order
      ⟨true, "", true, true, "x", none, true, ⟨1, 0, 0, 0, 0⟩, ⟨0, 0, 0⟩, ⟨0, 0⟩, true⟩
      [⟨0, 0, 0, 1/2⟩]
      ⟨13, "long", "bought", true, -10, 90, 100, 1, 3, 0, 1, 0, 0⟩ 1
      ⟨[], [⟨13, 1, 0, 5, 5, 1, 0⟩], [⟨13, 1, "w1", 5, 1, 8, 0⟩]⟩ =
      some (1, ⟨[], [⟨13, 1, 0, 5, 5, 1, 0⟩], [⟨13, 1, "w1", 5, 1, 8, 0⟩]⟩, []) := by
    rw [process_safety_spec
      ⟨true, "", true, true, "x", none, true, ⟨1, 0, 0, 0, 0⟩, ⟨0, 0, 0⟩, ⟨0, 0⟩, true⟩
      [⟨0, 0, 0, 1/2⟩]
      ⟨13, "long", "bought", true, -10, 90, 100, 1, 3, 0, 1, 0, 0⟩ 1
      ⟨[], [⟨13, 1, 0, 5, 5, 1, 0⟩], [⟨13, 1, "w1", 5, 1, 8, 0⟩]⟩
      ⟨13, 1, 0, 5, 5, 1, 0⟩ (by decide)]
    rw [htp]
    decide
  have h := pending_order_at_most_one
    ⟨true, "", true, true, "x", none, true, ⟨1, 0, 0, 0, 0⟩, ⟨0, 0, 0⟩, ⟨0, 0⟩, true⟩
    [⟨0, 0, 0, 1/2⟩]
    ⟨13, "long", "bought", true, -10, 90, 100, 1, 3, 0, 1, 0, 0⟩ 1
    ⟨[], [⟨13, 1, 0, 5, 5, 1, 0⟩], [⟨13, 1, "w1", 5, 1, 8, 0⟩]⟩
    ⟨13, 1, 0, 5, 5, 1, 0⟩ 1
    ⟨[], [⟨13, 1, 0, 5, 5, 1, 0⟩], [⟨13, 1, "w1", 5, 1, 8, 0⟩]⟩ []
    (by decide) (by decide) (by decide) hrun
  exact ⟨h.1, h.2.1⟩
